import Mathlib

/-!
Shallow embedding of the building-access reporting backend
(accessHistory.controller.ts and the administration report controller).

Timestamps are modelled as integer milliseconds since the epoch.
Durations are exact rationals: the controller divides a millisecond
difference by 1000*60*60 and rounds with toFixed(2), modelled by
exact rational division and round-half-up to two decimal places.
Store and writer calls are modelled by explicit data plus optional
error flags; a handler returns its HTTP envelope together with a
record of the effects it performed (queries issued, snapshot rows
written).
-/

/-- The state column of an access event: active, completed or cancelled. -/
inductive AccessState
  | active
  | completed
  | cancelled
deriving DecidableEq

/-- One access event row, with its person and room relations attached
(denormalized: person_name/person_surnames/room_name are the joined columns). -/
structure AccessEvent where
  id : Nat
  person_id : Nat
  room_id : Nat
  entry_datetime : Int
  exit_datetime : Option Int
  state : AccessState
  person_name : String
  person_surnames : String
  room_name : String
deriving DecidableEq

/-- A room row. -/
structure Room where
  id : Nat
  room_name : String
deriving DecidableEq

/-- toFixed(2): round a rational to two decimal places (round half up on the
value scaled by 100). -/
def round2 (q : ℚ) : ℚ := (round (q * 100) : ℤ) / 100

/-- Duration of an access in hours given its exit time:
(exit - entry) / (1000 * 60 * 60). -/
def durationHours (a : AccessEvent) (t : Int) : ℚ :=
  ((t - a.entry_datetime : Int) : ℚ) / (1000 * 60 * 60)

/-- Whether an event's entry_datetime lies in [s, e] (SQL BETWEEN, inclusive). -/
def inPeriodB (s e : Int) (a : AccessEvent) : Bool :=
  decide (s ≤ a.entry_datetime) && decide (a.entry_datetime ≤ e)

/-- endDate.setHours(23, 59, 59, 999): extend a start-of-day timestamp to the
last millisecond of that day. -/
def endOfDay (t : Int) : Int := t + 86399999

/-! ### Room usage aggregation (getRoomUsageStats, lines 271-300) -/

/-- One row of the room_stats array computed by getRoomUsageStats. -/
structure RoomStat where
  room_id : Nat
  room_name : String
  total_accesses : Nat
  completed_accesses : Nat
  cancelled_accesses : Nat
  total_hours_used : ℚ
  average_duration : ℚ
deriving DecidableEq

/-- The per-room statistics body of getRoomUsageStats: filter the fetched
accesses to the room, split into completed (exit_datetime not null) and
cancelled (state = cancelled), sum completed durations into the two equal
accumulators totalHours and totalDuration, and round totals and average
with toFixed(2). -/
def roomStatFor (accesses : List AccessEvent) (r : Room) : RoomStat :=
  let roomAccesses := accesses.filter (fun a => a.room_id == r.id)
  let completedAccesses := roomAccesses.filter (fun a => a.exit_datetime.isSome)
  let cancelledAccesses := roomAccesses.filter (fun a => a.state == AccessState.cancelled)
  let totalAccesses := roomAccesses.length - cancelledAccesses.length
  let totalHours : ℚ := completedAccesses.foldl
    (fun s a => match a.exit_datetime with
      | some t => s + durationHours a t
      | none => s) 0
  let totalDuration : ℚ := completedAccesses.foldl
    (fun s a => match a.exit_datetime with
      | some t => s + durationHours a t
      | none => s) 0
  let averageDuration : ℚ :=
    if completedAccesses.length > 0 then totalDuration / completedAccesses.length else 0
  { room_id := r.id
    room_name := r.room_name
    total_accesses := totalAccesses
    completed_accesses := completedAccesses.length
    cancelled_accesses := cancelledAccesses.length
    total_hours_used := round2 totalHours
    average_duration := round2 averageDuration }

/-- getRoomUsageStats maps roomStatFor over all fetched rooms. -/
def roomStats (accesses : List AccessEvent) (rooms : List Room) : List RoomStat :=
  rooms.map (roomStatFor accesses)

/-- Spec-side reading of the completed-access count for a room: only
non-cancelled events with non-null exit_datetime are counted. -/
def specCompletedCount (accesses : List AccessEvent) (r : Room) : Nat :=
  (accesses.filter (fun a =>
    a.room_id == r.id && !(a.state == AccessState.cancelled) && a.exit_datetime.isSome)).length

/-- Spec-side reading of the summed completed hours for a room (unrounded):
only non-cancelled events with non-null exit_datetime contribute. -/
def specCompletedHours (accesses : List AccessEvent) (r : Room) : ℚ :=
  ((accesses.filter (fun a =>
    a.room_id == r.id && !(a.state == AccessState.cancelled) && a.exit_datetime.isSome)).map
      (fun a => durationHours a (a.exit_datetime.getD 0))).sum

/-- The unrounded sum of durations over the code's completed filter (non-null
exit_datetime in the room, irrespective of state). -/
def rawTotalHours (accesses : List AccessEvent) (r : Room) : ℚ :=
  ((accesses.filter (fun a => a.room_id == r.id && a.exit_datetime.isSome)).map
    (fun a => durationHours a (a.exit_datetime.getD 0))).sum

/-! ### Period filters and counts (report controllers, lines 154-173 / 355-374) -/

/-- The completed-accesses query: entry_datetime BETWEEN start AND end,
exit_datetime IS NOT NULL. -/
def completedInPeriod (s e : Int) (events : List AccessEvent) : List AccessEvent :=
  events.filter (fun a => inPeriodB s e a && a.exit_datetime.isSome)

/-- The absences query: entry_datetime BETWEEN start AND end,
state = cancelled. -/
def cancelledInPeriod (s e : Int) (events : List AccessEvent) : List AccessEvent :=
  events.filter (fun a => inPeriodB s e a && a.state == AccessState.cancelled)

/-- Count of completed events in the period. -/
def countCompleted (s e : Int) (events : List AccessEvent) : Nat :=
  (completedInPeriod s e events).length

/-- Count of cancelled events in the period. -/
def countCancelled (s e : Int) (events : List AccessEvent) : Nat :=
  (cancelledInPeriod s e events).length

/-- Count of all events in the period. -/
def countInPeriod (s e : Int) (events : List AccessEvent) : Nat :=
  (events.filter (inPeriodB s e)).length

/-! ### Frequency cohorts (query builder + filters, lines 176-192 / 377-393) -/

/-- Descending order on (person_id, accessCount) pairs by accessCount. -/
def countGE (x y : Nat × Nat) : Prop := y.2 ≤ x.2

instance : DecidableRel countGE := fun x y => inferInstanceAs (Decidable (y.2 ≤ x.2))

instance : IsTotal (Nat × Nat) countGE := ⟨fun a b => le_total b.2 a.2⟩

instance : IsTrans (Nat × Nat) countGE := ⟨fun _ _ _ h1 h2 => le_trans h2 h1⟩

/-- GROUP BY person_id with COUNT(*) over completed events in the period
(one row per distinct person_id of a completed event). -/
def personCounts (s e : Int) (events : List AccessEvent) : List (Nat × Nat) :=
  let completed := completedInPeriod s e events
  (completed.map (fun a => a.person_id)).dedup.map
    (fun p => (p, completed.countP (fun a => a.person_id == p)))

/-- The getRawMany result: grouped per-person counts ordered by accessCount
descending. -/
def allActiveUsers (s e : Int) (events : List AccessEvent) : List (Nat × Nat) :=
  List.insertionSort countGE (personCounts s e events)

/-- frequentUsers = allActiveUsers.filter(accessCount > 3). -/
def frequentUsers (s e : Int) (events : List AccessEvent) : List (Nat × Nat) :=
  (allActiveUsers s e events).filter (fun u => decide (u.2 > 3))

/-- infrequentUsers = allActiveUsers.filter(accessCount <= 3). -/
def infrequentUsers (s e : Int) (events : List AccessEvent) : List (Nat × Nat) :=
  (allActiveUsers s e events).filter (fun u => decide (u.2 ≤ 3))

/-! ### History listing (getAccessHistories / getRoomAccessHistories) -/

/-- Descending order on events by entry_datetime. -/
def entryGE (a b : AccessEvent) : Prop := b.entry_datetime ≤ a.entry_datetime

instance : DecidableRel entryGE := fun a b =>
  inferInstanceAs (Decidable (b.entry_datetime ≤ a.entry_datetime))

instance : IsTotal AccessEvent entryGE := ⟨fun a b => le_total b.entry_datetime a.entry_datetime⟩

instance : IsTrans AccessEvent entryGE := ⟨fun _ _ _ h1 h2 => le_trans h2 h1⟩

/-- The find call of getAccessHistories: entry_datetime BETWEEN start AND end,
ordered by entry_datetime DESC. -/
def findHistoriesDesc (s e : Int) (events : List AccessEvent) : List AccessEvent :=
  List.insertionSort entryGE (events.filter (inPeriodB s e))

/-- The find call of getRoomAccessHistories: same but also filtered by room. -/
def findRoomHistoriesDesc (rid : Int) (s e : Int) (events : List AccessEvent) :
    List AccessEvent :=
  List.insertionSort entryGE
    (events.filter (fun a => (a.room_id : Int) == rid && inPeriodB s e a))

/-- One formatted history row of the JSON payload. -/
structure FormattedHistory where
  id : Nat
  person_name : String
  room_name : String
  entry_datetime : Int
  exit_datetime : Option Int
deriving DecidableEq

/-- The map over fetched histories producing the response rows. -/
def formatHistory (a : AccessEvent) : FormattedHistory :=
  { id := a.id
    person_name := a.person_name ++ " " ++ a.person_surnames
    room_name := a.room_name
    entry_datetime := a.entry_datetime
    exit_datetime := a.exit_datetime }

/-! ### HTTP handler models -/

/-- The JSON envelope: status code, success flag, message, optional echoed
error message. -/
structure Response where
  status : Nat
  success : Bool
  message : String
  error : Option String
deriving DecidableEq

/-- The access-history store as seen by getAccessHistories: its rows plus an
optional exception raised by the find call. -/
structure HistStore where
  events : List AccessEvent
  findError : Option String
deriving DecidableEq

/-- Outcome of getAccessHistories: envelope, data rows, number of store
queries performed. -/
structure HistOutcome where
  resp : Response
  data : List FormattedHistory
  queries : Nat
deriving DecidableEq

/-- getAccessHistories (lines 7-61): validate presence of both dates, parse
them, reject NaN, fetch ordered histories, format them. -/
def getAccessHistories (parseDate : String → Option Int) (store : HistStore)
    (start_date end_date : Option String) : HistOutcome :=
  match start_date, end_date with
  | some s, some e =>
    match parseDate s, parseDate e with
    | some sd, some ed0 =>
      match store.findError with
      | some m =>
        { resp := ⟨500, false, "An error occurred while fetching access histories", some m⟩
          data := [], queries := 1 }
      | none =>
        { resp := ⟨200, true, "Access histories retrieved successfully", none⟩
          data := (findHistoriesDesc sd (endOfDay ed0) store.events).map formatHistory
          queries := 1 }
    | none, _ =>
      { resp := ⟨400, false, "Invalid date format. Use YYYY-MM-DD", none⟩
        data := [], queries := 0 }
    | some _, none =>
      { resp := ⟨400, false, "Invalid date format. Use YYYY-MM-DD", none⟩
        data := [], queries := 0 }
  | none, _ =>
    { resp := ⟨400, false, "Start date and end date are required", none⟩
      data := [], queries := 0 }
  | some _, none =>
    { resp := ⟨400, false, "Start date and end date are required", none⟩
      data := [], queries := 0 }

/-- The stores seen by getRoomAccessHistories: rooms and events plus optional
exceptions for the room findOne and the history find. -/
structure RoomHistStore where
  rooms : List Room
  events : List AccessEvent
  roomFindError : Option String
  findError : Option String
deriving DecidableEq

/-- Outcome of getRoomAccessHistories: envelope, room name, data rows, counts
of room-store and access-history-store queries. -/
structure RoomHistOutcome where
  resp : Response
  room_name : String
  data : List FormattedHistory
  roomQueries : Nat
  historyQueries : Nat
deriving DecidableEq

/-- getRoomAccessHistories (lines 63-139): validate room_id (none models a
NaN parseInt), validate and parse dates, look the room up (404 when absent),
fetch the room's ordered histories, format them. -/
def getRoomAccessHistories (parseDate : String → Option Int) (store : RoomHistStore)
    (room_id : Option Int) (start_date end_date : Option String) : RoomHistOutcome :=
  match room_id with
  | none =>
    { resp := ⟨400, false, "Invalid room ID", none⟩
      room_name := "", data := [], roomQueries := 0, historyQueries := 0 }
  | some rid =>
    match start_date, end_date with
    | some s, some e =>
      match parseDate s, parseDate e with
      | some sd, some ed0 =>
        match store.roomFindError with
        | some m =>
          { resp := ⟨500, false, "Error getting room access histories", some m⟩
            room_name := "", data := [], roomQueries := 1, historyQueries := 0 }
        | none =>
          match store.rooms.find? (fun r => (r.id : Int) == rid) with
          | none =>
            { resp := ⟨404, false, "Room not found", none⟩
              room_name := "", data := [], roomQueries := 1, historyQueries := 0 }
          | some r =>
            match store.findError with
            | some m =>
              { resp := ⟨500, false, "Error getting room access histories", some m⟩
                room_name := "", data := [], roomQueries := 1, historyQueries := 1 }
            | none =>
              { resp := ⟨200, true, "Room access histories retrieved successfully", none⟩
                room_name := r.room_name
                data := (findRoomHistoriesDesc rid sd (endOfDay ed0) store.events).map
                  formatHistory
                roomQueries := 1, historyQueries := 1 }
      | none, _ =>
        { resp := ⟨400, false, "Invalid date format. Use YYYY-MM-DD", none⟩
          room_name := "", data := [], roomQueries := 0, historyQueries := 0 }
      | some _, none =>
        { resp := ⟨400, false, "Invalid date format. Use YYYY-MM-DD", none⟩
          room_name := "", data := [], roomQueries := 0, historyQueries := 0 }
    | none, _ =>
      { resp := ⟨400, false, "Start date and end date are required", none⟩
        room_name := "", data := [], roomQueries := 0, historyQueries := 0 }
    | some _, none =>
      { resp := ⟨400, false, "Start date and end date are required", none⟩
        room_name := "", data := [], roomQueries := 0, historyQueries := 0 }

/-! ### Report generation (generateDailyReport / getDateReport) -/

/-- One persisted ReportSnapshot row (the administration entity). The cohort
lists are stored here unserialized. -/
structure Snapshot where
  report_date : Int
  total_accesses : Nat
  total_absences : Nat
  frequent_users : List (Nat × Nat)
  infrequent_users : List (Nat × Nat)
deriving DecidableEq

/-- The access store and report writer as seen by the report handlers: rows
plus optional exceptions for each of the two find calls, the grouping query
and the snapshot save. -/
structure ReportStore where
  events : List AccessEvent
  findAccessesError : Option String
  findAbsencesError : Option String
  groupError : Option String
  saveError : Option String
deriving DecidableEq

/-- Outcome of a report handler: envelope, snapshot rows written, number of
store queries performed. -/
structure ReportOutcome where
  resp : Response
  snapshots : List Snapshot
  queries : Nat
deriving DecidableEq

/-- The shared body of generateDailyReport and getDateReport (lines 154-237 /
355-438): fetch completed accesses and absences in the period, group per-person
counts, split the cohorts, save one snapshot row, answer 201; any thrown
exception is caught and answered with the handler's 500 envelope. -/
def runReport (store : ReportStore) (sd ed reportDate : Int) (okMsg errMsg : String) :
    ReportOutcome :=
  match store.findAccessesError with
  | some m => { resp := ⟨500, false, errMsg, some m⟩, snapshots := [], queries := 1 }
  | none =>
    let totalAccesses := (completedInPeriod sd ed store.events).length
    match store.findAbsencesError with
    | some m => { resp := ⟨500, false, errMsg, some m⟩, snapshots := [], queries := 2 }
    | none =>
      let totalAbsences := (cancelledInPeriod sd ed store.events).length
      match store.groupError with
      | some m => { resp := ⟨500, false, errMsg, some m⟩, snapshots := [], queries := 3 }
      | none =>
        match store.saveError with
        | some m => { resp := ⟨500, false, errMsg, some m⟩, snapshots := [], queries := 3 }
        | none =>
          { resp := ⟨201, true, okMsg, none⟩
            snapshots := [⟨reportDate, totalAccesses, totalAbsences,
              frequentUsers sd ed store.events, infrequentUsers sd ed store.events⟩]
            queries := 3 }

/-- generateDailyReport (lines 146-247): period and report date are computed
from the clock (passed here as arguments); no request validation. -/
def generateDailyReport (store : ReportStore) (now startOfMonth endOfToday : Int) :
    ReportOutcome :=
  runReport store startOfMonth endOfToday now
    "Daily report generated and saved successfully" "Error generating daily report"

/-- getDateReport (lines 333-448): validate presence of both dates, parse
them, reject NaN, then run the shared report body with report_date = the
parsed start date. -/
def getDateReport (parseDate : String → Option Int) (store : ReportStore)
    (start_date end_date : Option String) : ReportOutcome :=
  match start_date, end_date with
  | some s, some e =>
    match parseDate s, parseDate e with
    | some sd, some ed0 =>
      runReport store sd (endOfDay ed0) sd
        "Custom report generated and saved successfully" "Error generating custom report"
    | none, _ =>
      { resp := ⟨400, false, "Invalid date format. Use YYYY-MM-DD", none⟩
        snapshots := [], queries := 0 }
    | some _, none =>
      { resp := ⟨400, false, "Invalid date format. Use YYYY-MM-DD", none⟩
        snapshots := [], queries := 0 }
  | none, _ =>
    { resp := ⟨400, false, "Start date and end date are required", none⟩
      snapshots := [], queries := 0 }
  | some _, none =>
    { resp := ⟨400, false, "Start date and end date are required", none⟩
      snapshots := [], queries := 0 }

/-- The stores seen by getRoomUsageStats: events and rooms plus optional
exceptions for the two find calls. -/
structure UsageStore where
  events : List AccessEvent
  rooms : List Room
  findError : Option String
  roomsError : Option String
deriving DecidableEq

/-- Outcome of getRoomUsageStats. -/
structure UsageOutcome where
  resp : Response
  stats : List RoomStat
  queries : Nat
deriving DecidableEq

/-- getRoomUsageStats (lines 249-331): period computed from the clock (passed
here as arguments); fetch accesses in the period and all rooms, compute
per-room statistics, answer 200; exceptions answered with 500. -/
def getRoomUsageStats (store : UsageStore) (startDate endDate : Int) : UsageOutcome :=
  match store.findError with
  | some m =>
    { resp := ⟨500, false, "Error retrieving room usage statistics", some m⟩
      stats := [], queries := 1 }
  | none =>
    match store.roomsError with
    | some m =>
      { resp := ⟨500, false, "Error retrieving room usage statistics", some m⟩
        stats := [], queries := 2 }
    | none =>
      { resp := ⟨200, true,
          "Room usage statistics from the beginning of the month to today retrieved successfully",
          none⟩
        stats := roomStats (store.events.filter (inPeriodB startDate endDate)) store.rooms
        queries := 2 }

/-! ### Concrete inputs used by examples, witnesses and counterexamples -/

/-- The spec example's completed event: entry 10:00, exit 11:30. -/
def evCompleted : AccessEvent :=
  { id := 1, person_id := 1, room_id := 1, entry_datetime := 36000000
    exit_datetime := some 41400000, state := AccessState.completed
    person_name := "A", person_surnames := "B", room_name := "R" }

/-- The spec example's cancelled event: entry 09:00, exit null. -/
def evCancelledNull : AccessEvent :=
  { id := 2, person_id := 2, room_id := 1, entry_datetime := 32400000
    exit_datetime := none, state := AccessState.cancelled
    person_name := "C", person_surnames := "D", room_name := "R" }

/-- A cancelled event that nonetheless carries a non-null exit_datetime. -/
def evCancelledExit : AccessEvent :=
  { id := 3, person_id := 3, room_id := 1, entry_datetime := 0
    exit_datetime := some 3600000, state := AccessState.cancelled
    person_name := "E", person_surnames := "F", room_name := "R" }

/-- A completed event of duration 1.009 hours (3632400 ms). -/
def evOddDuration : AccessEvent :=
  { id := 4, person_id := 4, room_id := 1, entry_datetime := 0
    exit_datetime := some 3632400, state := AccessState.completed
    person_name := "G", person_surnames := "H", room_name := "R" }

/-- A completed event of duration 0. -/
def evZeroDuration : AccessEvent :=
  { id := 5, person_id := 5, room_id := 1, entry_datetime := 0
    exit_datetime := some 0, state := AccessState.completed
    person_name := "I", person_surnames := "J", room_name := "R" }

/-- The room the concrete events belong to. -/
def room1 : Room := { id := 1, room_name := "R" }

/-- Descending order on formatted history rows by entry_datetime. -/
def entryDescFH (x y : FormattedHistory) : Prop := y.entry_datetime ≤ x.entry_datetime

/-- A date parser that accepts everything (maps every string to epoch 0). -/
def pdSome : String → Option Int := fun _ => some 0

/-- A date parser that rejects everything (models NaN for every string). -/
def pdNone : String → Option Int := fun _ => none

/-- An access-history store with no rows and no failure. -/
def hsOk : HistStore := { events := [], findError := none }

/-- An access-history store whose find call throws "boom". -/
def hsBoom : HistStore := { events := [], findError := some "boom" }

/-- A room-history store with no rooms and no failures. -/
def rhsEmpty : RoomHistStore :=
  { rooms := [], events := [], roomFindError := none, findError := none }

/-- A report store with no failures. -/
def rsOk : ReportStore :=
  { events := [evCompleted], findAccessesError := none, findAbsencesError := none
    groupError := none, saveError := none }

/-- A report store whose first find call throws "boom". -/
def rsBoom : ReportStore :=
  { events := [], findAccessesError := some "boom", findAbsencesError := none
    groupError := none, saveError := none }

/-- A usage store whose find call throws "boom". -/
def usBoom : UsageStore :=
  { events := [], rooms := [], findError := some "boom", roomsError := none }

/-! ### Helper lemmas about the room-usage aggregation -/

theorem completedAccesses_eq (accesses : List AccessEvent) (r : Room) :
    (accesses.filter (fun a => a.room_id == r.id)).filter (fun a => a.exit_datetime.isSome)
      = accesses.filter (fun a => a.room_id == r.id && a.exit_datetime.isSome) := by
  rw [List.filter_filter]
  exact List.filter_congr (fun a _ => by
    cases a.room_id == r.id <;> cases a.exit_datetime.isSome <;> rfl)

theorem foldl_durations (l : List AccessEvent) (init : ℚ)
    (h : ∀ a ∈ l, a.exit_datetime.isSome = true) :
    l.foldl (fun s a => match a.exit_datetime with
      | some t => s + durationHours a t
      | none => s) init
      = init + ((l.map (fun a => durationHours a (a.exit_datetime.getD 0))).sum) := by
  induction l generalizing init with
  | nil => simp
  | cons a l ih =>
    have ha := h a (by simp)
    cases hx : a.exit_datetime with
    | none => rw [hx] at ha; simp at ha
    | some t =>
      simp only [List.foldl_cons, hx, List.map_cons, List.sum_cons]
      rw [ih _ (fun b hb => h b (by simp [hb]))]
      simp only [Option.getD_some]
      ring

theorem roomStatFor_completed (accesses : List AccessEvent) (r : Room) :
    (roomStatFor accesses r).completed_accesses
      = (accesses.filter (fun a => a.room_id == r.id && a.exit_datetime.isSome)).length := by
  simp only [roomStatFor, completedAccesses_eq]

theorem roomStatFor_hours (accesses : List AccessEvent) (r : Room) :
    (roomStatFor accesses r).total_hours_used = round2 (rawTotalHours accesses r) := by
  simp only [roomStatFor, completedAccesses_eq, rawTotalHours]
  rw [foldl_durations _ _ (fun a ha => by
    have hm := (List.mem_filter.mp ha).2
    simp only [Bool.and_eq_true] at hm
    exact hm.2)]
  · rw [zero_add]

theorem roomStatFor_avg (accesses : List AccessEvent) (r : Room) :
    (roomStatFor accesses r).average_duration
      = if 0 < (roomStatFor accesses r).completed_accesses
        then round2 (rawTotalHours accesses r
          / ((roomStatFor accesses r).completed_accesses : ℚ))
        else 0 := by
  simp only [roomStatFor, completedAccesses_eq, rawTotalHours]
  rw [foldl_durations _ _ (fun a ha => by
    have hm := (List.mem_filter.mp ha).2
    simp only [Bool.and_eq_true] at hm
    exact hm.2)]
  rw [zero_add]
  by_cases h : 0 < (accesses.filter (fun a => a.room_id == r.id && a.exit_datetime.isSome)).length
  · simp [h, Nat.pos_iff_ne_zero.mp h]
  · have h0 : (accesses.filter (fun a => a.room_id == r.id && a.exit_datetime.isSome)).length = 0 :=
      Nat.eq_zero_of_not_pos h
    simp [h, h0, round2]

theorem countP_add_countP_le {α : Type} (p q r : α → Bool) (l : List α)
    (h : ∀ a ∈ l, (p a = true → r a = true) ∧ (q a = true → r a = true)
      ∧ ¬(p a = true ∧ q a = true)) :
    l.countP p + l.countP q ≤ l.countP r := by
  induction l with
  | nil => simp
  | cons a l ih =>
    have ha := h a (List.mem_cons_self a l)
    have hl := ih (fun b hb => h b (List.mem_cons_of_mem a hb))
    rcases ha with ⟨h1, h2, h3⟩
    simp only [List.countP_cons]
    by_cases hp : p a = true
    · have hr := h1 hp
      have hq : ¬ q a = true := fun hq => h3 ⟨hp, hq⟩
      simp only [hp, hr, if_true, if_neg hq]
      omega
    · by_cases hq : q a = true
      · have hr := h2 hq
        simp only [hr, if_true, if_pos hq, if_neg hp]
        omega
      · by_cases hr : r a = true <;> simp only [hr, if_true, if_neg hp, if_neg hq, if_false] <;>
          omega

/-- C1 (counterexample): on a single cancelled event carrying a non-null
exit_datetime, getRoomUsageStats counts it as a completed access and sums its
duration, so completed counts and summed hours do not range only over
non-cancelled events. -/
theorem C1_counterexample :
    evCancelledExit.state = AccessState.cancelled ∧
    (roomStatFor [evCancelledExit] room1).completed_accesses = 1 ∧
    specCompletedCount [evCancelledExit] room1 = 0 ∧
    (roomStatFor [evCancelledExit] room1).completed_accesses
      ≠ specCompletedCount [evCancelledExit] room1 ∧
    (roomStatFor [evCancelledExit] room1).total_hours_used = 1 ∧
    (roomStatFor [evCancelledExit] room1).total_hours_used
      ≠ round2 (specCompletedHours [evCancelledExit] room1) := by
  refine ⟨rfl, by decide, by decide, by decide, ?_, ?_⟩ <;>
    norm_num [roomStatFor, specCompletedHours, evCancelledExit, room1, durationHours,
      round2, round_eq, List.filter]

/-- C1 (amended): whenever every cancelled event has a null exit_datetime —
the data-model invariant — a cancelled event contributes neither to the
completed-access count nor to the summed completed hours of any room: both
range exactly over the non-cancelled events with non-null exit_datetime. -/
theorem C1_cancelled_never_contributes (accesses : List AccessEvent) (r : Room)
    (h : ∀ a ∈ accesses, a.state = AccessState.cancelled → a.exit_datetime = none) :
    (roomStatFor accesses r).completed_accesses = specCompletedCount accesses r ∧
    (roomStatFor accesses r).total_hours_used = round2 (specCompletedHours accesses r) := by
  have hfe : accesses.filter (fun a => a.room_id == r.id && a.exit_datetime.isSome)
      = accesses.filter (fun a =>
        a.room_id == r.id && !(a.state == AccessState.cancelled) && a.exit_datetime.isSome) := by
    refine List.filter_congr (fun a ha => ?_)
    by_cases hs : a.state = AccessState.cancelled
    · have hx : a.exit_datetime = none := h a ha hs
      simp [hs, hx]
    · have hb : (a.state == AccessState.cancelled) = false := beq_eq_false_iff_ne.mpr hs
      simp [hb]
  constructor
  · rw [roomStatFor_completed, specCompletedCount, hfe]
  · rw [roomStatFor_hours, rawTotalHours, specCompletedHours, hfe]

/-- C1 (witness). -/
theorem C1_witness :
    (∀ a ∈ [evCompleted, evCancelledNull],
      a.state = AccessState.cancelled → a.exit_datetime = none) ∧
    ((roomStatFor [evCompleted, evCancelledNull] room1).completed_accesses
        = specCompletedCount [evCompleted, evCancelledNull] room1 ∧
      (roomStatFor [evCompleted, evCancelledNull] room1).total_hours_used
        = round2 (specCompletedHours [evCompleted, evCancelledNull] room1)) :=
  ⟨by decide, C1_cancelled_never_contributes [evCompleted, evCancelledNull] room1 (by decide)⟩

/-- C3 (counterexample): a single in-period event with state = cancelled and a
non-null exit_datetime is counted both as completed and as cancelled, so the
two counts sum to 2 against 1 event in the period. -/
theorem C3_counterexample :
    countCompleted 0 10 [evCancelledExit] + countCancelled 0 10 [evCancelledExit] = 2 ∧
    countInPeriod 0 10 [evCancelledExit] = 1 ∧
    ¬(countCompleted 0 10 [evCancelledExit] + countCancelled 0 10 [evCancelledExit]
      ≤ countInPeriod 0 10 [evCancelledExit]) := by
  refine ⟨by decide, by decide, by decide⟩

/-- C3 (amended): whenever every cancelled event has a null exit_datetime —
the data-model invariant — the completed and cancelled counts over a period
sum to at most the total number of events in the period. -/
theorem C3_sum_le (s e : Int) (events : List AccessEvent)
    (h : ∀ a ∈ events, a.state = AccessState.cancelled → a.exit_datetime = none) :
    countCompleted s e events + countCancelled s e events ≤ countInPeriod s e events := by
  rw [countCompleted, countCancelled, countInPeriod, completedInPeriod, cancelledInPeriod,
    ← List.countP_eq_length_filter, ← List.countP_eq_length_filter,
    ← List.countP_eq_length_filter]
  refine countP_add_countP_le _ _ _ events (fun a ha => ⟨?_, ?_, ?_⟩)
  · intro hp
    exact (Bool.and_eq_true_iff.mp hp).1
  · intro hq
    exact (Bool.and_eq_true_iff.mp hq).1
  · rintro ⟨hp, hq⟩
    have hx : a.exit_datetime.isSome = true := (Bool.and_eq_true_iff.mp hp).2
    have hc : a.state = AccessState.cancelled := by
      have := (Bool.and_eq_true_iff.mp hq).2
      exact beq_iff_eq.mp this
    rw [h a ha hc] at hx
    simp at hx

/-- C3 (witness). -/
theorem C3_witness :
    (∀ a ∈ [evCompleted, evCancelledNull],
      a.state = AccessState.cancelled → a.exit_datetime = none) ∧
    (countCompleted 0 50000000 [evCompleted, evCancelledNull]
        + countCancelled 0 50000000 [evCompleted, evCancelledNull]
      ≤ countInPeriod 0 50000000 [evCompleted, evCancelledNull]) :=
  ⟨by decide, C3_sum_le 0 50000000 [evCompleted, evCancelledNull] (by decide)⟩

/-- C4 (counterexample): with completed durations 1.009 h and 0 h the code
reports total_hours_used = 1.01 and average_duration = 0.50, but
1.01 / 2 = 0.505 and even its two-decimal rounding is 0.51, so the reported
average is not the reported total divided by the completed count. -/
theorem C4_counterexample :
    (roomStatFor [evOddDuration, evZeroDuration] room1).completed_accesses = 2 ∧
    (roomStatFor [evOddDuration, evZeroDuration] room1).total_hours_used = 101/100 ∧
    (roomStatFor [evOddDuration, evZeroDuration] room1).average_duration = 1/2 ∧
    (roomStatFor [evOddDuration, evZeroDuration] room1).average_duration
      ≠ (roomStatFor [evOddDuration, evZeroDuration] room1).total_hours_used
        / (((roomStatFor [evOddDuration, evZeroDuration] room1).completed_accesses : Nat) : ℚ) ∧
    (roomStatFor [evOddDuration, evZeroDuration] room1).average_duration
      ≠ round2 ((roomStatFor [evOddDuration, evZeroDuration] room1).total_hours_used
        / (((roomStatFor [evOddDuration, evZeroDuration] room1).completed_accesses : Nat) : ℚ)) := by
  refine ⟨by decide, ?_, ?_, ?_, ?_⟩ <;>
    norm_num [roomStatFor, evOddDuration, evZeroDuration, room1, durationHours,
      round2, round_eq, List.filter]

/-- C4 (amended): the reported average_duration is the UNROUNDED total
duration divided by the completed count, rounded to two decimals, when the
completed count is positive, and 0 otherwise; total_hours_used is the same
unrounded total rounded to two decimals (so the reported average need not
equal the reported total divided by the count). -/
theorem C4_average_duration (accesses : List AccessEvent) (r : Room) :
    ((roomStatFor accesses r).completed_accesses = 0 →
      (roomStatFor accesses r).average_duration = 0) ∧
    (0 < (roomStatFor accesses r).completed_accesses →
      (roomStatFor accesses r).average_duration
        = round2 (rawTotalHours accesses r
          / (((roomStatFor accesses r).completed_accesses : Nat) : ℚ))) ∧
    (roomStatFor accesses r).total_hours_used = round2 (rawTotalHours accesses r) := by
  refine ⟨?_, ?_, roomStatFor_hours accesses r⟩
  · intro h0
    rw [roomStatFor_avg]
    simp [h0]
  · intro hpos
    rw [roomStatFor_avg, if_pos hpos]

/-- C4 (witness). -/
theorem C4_witness :
    0 < (roomStatFor [evCompleted] room1).completed_accesses ∧
    (roomStatFor [evCompleted] room1).average_duration
      = round2 (rawTotalHours [evCompleted] room1
        / (((roomStatFor [evCompleted] room1).completed_accesses : Nat) : ℚ)) :=
  ⟨by decide, (C4_average_duration [evCompleted] room1).2.1 (by decide)⟩

/-- C5: on the spec's example input — one completed access 10:00 to 11:30 and
one cancelled access with null exit — the aggregation yields
completed_accesses = 1, cancelled_accesses = 1, total_hours_used = 1.5 and
average_duration = 1.5. -/
theorem C5_example :
    (roomStatFor [evCompleted, evCancelledNull] room1).completed_accesses = 1 ∧
    (roomStatFor [evCompleted, evCancelledNull] room1).cancelled_accesses = 1 ∧
    (roomStatFor [evCompleted, evCancelledNull] room1).total_hours_used = 3/2 ∧
    (roomStatFor [evCompleted, evCancelledNull] room1).average_duration = 3/2 := by
  refine ⟨by decide, by decide, ?_, ?_⟩ <;>
    norm_num [roomStatFor, evCompleted, evCancelledNull, room1, durationHours,
      round2, round_eq, List.filter]

theorem countP_filter_add_countP_filter {α : Type} (l : List α) (k c : α → Bool) :
    (l.filter c).countP k + (l.filter (fun a => !(c a))).countP k = l.countP k := by
  induction l with
  | nil => simp
  | cons a l ih =>
    cases hc : c a <;> cases hk : k a <;>
      simp [List.filter_cons, hc, hk, List.countP_cons, ih] <;> omega

theorem infrequent_eq_not_frequent (s e : Int) (events : List AccessEvent) :
    infrequentUsers s e events
      = (allActiveUsers s e events).filter (fun u => !(decide (u.2 > 3))) := by
  refine List.filter_congr (fun u _ => ?_)
  by_cases h : u.2 ≤ 3
  · simp [h, Nat.not_lt.mpr h]
  · simp [h, Nat.lt_of_not_le h]

theorem countP_key_personCounts (s e : Int) (events : List AccessEvent) (p : Nat) :
    (personCounts s e events).countP (fun u => u.1 == p)
      = if p ∈ (completedInPeriod s e events).map (fun a => a.person_id) then 1 else 0 := by
  unfold personCounts
  rw [List.countP_map]
  have he : ((fun u : Nat × Nat => u.1 == p)
        ∘ (fun q => (q, (completedInPeriod s e events).countP (fun a => a.person_id == q))))
      = (fun q => q == p) := rfl
  rw [he]
  have hc : ((completedInPeriod s e events).map (fun a => a.person_id)).dedup.countP
      (fun q => q == p)
      = ((completedInPeriod s e events).map (fun a => a.person_id)).dedup.count p := rfl
  rw [hc, List.count_dedup]

/-- C2: every person with at least one completed access (non-null
exit_datetime) in the period appears in exactly one of the frequent and
infrequent cohorts (counted exactly once across both), and each cohort is
sorted by access count descending. -/
theorem C2_cohort_partition (s e : Int) (events : List AccessEvent) (p : Nat)
    (h : ∃ a ∈ events, inPeriodB s e a = true ∧ a.exit_datetime.isSome = true
      ∧ a.person_id = p) :
    (frequentUsers s e events).countP (fun u => u.1 == p)
      + (infrequentUsers s e events).countP (fun u => u.1 == p) = 1 ∧
    List.Sorted countGE (frequentUsers s e events) ∧
    List.Sorted countGE (infrequentUsers s e events) := by
  obtain ⟨a, haev, hper, hex, hpid⟩ := h
  have hsorted : List.Sorted countGE (allActiveUsers s e events) :=
    List.sorted_insertionSort countGE (personCounts s e events)
  refine ⟨?_, List.Pairwise.filter _ hsorted, List.Pairwise.filter _ hsorted⟩
  rw [infrequent_eq_not_frequent, frequentUsers, countP_filter_add_countP_filter]
  rw [allActiveUsers, (List.perm_insertionSort countGE (personCounts s e events)).countP_eq]
  rw [countP_key_personCounts]
  have hmem : p ∈ (completedInPeriod s e events).map (fun a => a.person_id) :=
    List.mem_map.mpr ⟨a, List.mem_filter.mpr ⟨haev, by simp [hper, hex]⟩, hpid⟩
  rw [if_pos hmem]

/-- C2 (witness). -/
theorem C2_witness :
    (∃ a ∈ [evCompleted], inPeriodB 0 50000000 a = true ∧ a.exit_datetime.isSome = true
      ∧ a.person_id = 1) ∧
    ((frequentUsers 0 50000000 [evCompleted]).countP (fun u => u.1 == 1)
      + (infrequentUsers 0 50000000 [evCompleted]).countP (fun u => u.1 == 1) = 1 ∧
    List.Sorted countGE (frequentUsers 0 50000000 [evCompleted]) ∧
    List.Sorted countGE (infrequentUsers 0 50000000 [evCompleted])) :=
  ⟨by decide, C2_cohort_partition 0 50000000 [evCompleted] 1 (by decide)⟩

theorem runReport_success (store : ReportStore) (sd ed rd : Int) (okMsg errMsg : String)
    (h1 : store.findAccessesError = none) (h2 : store.findAbsencesError = none)
    (h3 : store.groupError = none) (h4 : store.saveError = none) :
    runReport store sd ed rd okMsg errMsg
      = { resp := ⟨201, true, okMsg, none⟩
          snapshots := [⟨rd, (completedInPeriod sd ed store.events).length,
            (cancelledInPeriod sd ed store.events).length,
            frequentUsers sd ed store.events, infrequentUsers sd ed store.events⟩]
          queries := 3 } := by
  simp only [runReport, h1, h2, h3, h4]

theorem runReport_not_created (store : ReportStore) (sd ed rd : Int) (okMsg errMsg : String)
    (h : (runReport store sd ed rd okMsg errMsg).resp.status ≠ 201) :
    (runReport store sd ed rd okMsg errMsg).snapshots = [] := by
  cases h1 : store.findAccessesError <;> cases h2 : store.findAbsencesError <;>
    cases h3 : store.groupError <;> cases h4 : store.saveError <;>
    simp only [runReport, h1, h2, h3, h4] at h ⊢
  all_goals first
    | rfl
    | exact absurd rfl h

/-- C6: each report-generating request writes exactly one ReportSnapshot row
on its success path — and a re-invocation appends a second row, there being no
deduplication — while any non-201 outcome (validation failure or store/writer
exception) writes no snapshot at all. -/
theorem C6_exactly_one_snapshot (store : ReportStore) (now som eot : Int)
    (pd : String → Option Int) (start_date end_date : Option String) (s e : String)
    (sd ed0 : Int) :
    (store.findAccessesError = none → store.findAbsencesError = none →
      store.groupError = none → store.saveError = none →
      ((generateDailyReport store now som eot).resp.status = 201 ∧
       (generateDailyReport store now som eot).snapshots.length = 1 ∧
       ((generateDailyReport store now som eot).snapshots
         ++ (generateDailyReport store now som eot).snapshots).length = 2)) ∧
    ((generateDailyReport store now som eot).resp.status ≠ 201 →
      (generateDailyReport store now som eot).snapshots = []) ∧
    (pd s = some sd → pd e = some ed0 →
      store.findAccessesError = none → store.findAbsencesError = none →
      store.groupError = none → store.saveError = none →
      ((getDateReport pd store (some s) (some e)).resp.status = 201 ∧
       (getDateReport pd store (some s) (some e)).snapshots.length = 1 ∧
       ((getDateReport pd store (some s) (some e)).snapshots
         ++ (getDateReport pd store (some s) (some e)).snapshots).length = 2)) ∧
    ((getDateReport pd store start_date end_date).resp.status ≠ 201 →
      (getDateReport pd store start_date end_date).snapshots = []) := by
  refine ⟨?_, ?_, ?_, ?_⟩
  · intro h1 h2 h3 h4
    rw [generateDailyReport, runReport_success store _ _ _ _ _ h1 h2 h3 h4]
    exact ⟨rfl, rfl, rfl⟩
  · intro h
    rw [generateDailyReport] at h ⊢
    exact runReport_not_created _ _ _ _ _ _ h
  · intro hs he h1 h2 h3 h4
    rw [getDateReport]
    simp only [hs, he]
    rw [runReport_success store _ _ _ _ _ h1 h2 h3 h4]
    exact ⟨rfl, rfl, rfl⟩
  · intro h
    match start_date, end_date with
    | none, od =>
      rw [getDateReport]
    | some s2, none =>
      rw [getDateReport]
    | some s2, some e2 =>
      rw [getDateReport] at h ⊢
      cases hps : pd s2 with
      | none => simp only [hps]
      | some sd2 =>
        cases hpe : pd e2 with
        | none => simp only [hps, hpe]
        | some ed2 =>
          simp only [hps, hpe] at h ⊢
          exact runReport_not_created _ _ _ _ _ _ h

/-- C6 (witness). -/
theorem C6_witness :
    rsOk.findAccessesError = none ∧
    ((generateDailyReport rsOk 0 0 50000000).resp.status = 201 ∧
     (generateDailyReport rsOk 0 0 50000000).snapshots.length = 1 ∧
     ((generateDailyReport rsOk 0 0 50000000).snapshots
       ++ (generateDailyReport rsOk 0 0 50000000).snapshots).length = 2) ∧
    ((getDateReport pdSome rsOk (some "2024-01-01") (some "2024-01-02")).resp.status = 201 ∧
     (getDateReport pdSome rsOk (some "2024-01-01") (some "2024-01-02")).snapshots.length = 1 ∧
     ((getDateReport pdSome rsOk (some "2024-01-01") (some "2024-01-02")).snapshots
       ++ (getDateReport pdSome rsOk (some "2024-01-01") (some "2024-01-02")).snapshots).length
        = 2) :=
  ⟨rfl,
    (C6_exactly_one_snapshot rsOk 0 0 50000000 pdSome none none "x" "y" 0 0).1
      rfl rfl rfl rfl,
    (C6_exactly_one_snapshot rsOk 0 0 50000000 pdSome none none
      "2024-01-01" "2024-01-02" 0 0).2.2.1 rfl rfl rfl rfl rfl rfl⟩

/-- C7: on a date-parameterised endpoint, an absent start_date or end_date
yields a 400 with success = false and no store query; a present but
unparsable date yields exactly the 400 envelope with message
"Invalid date format. Use YYYY-MM-DD" and no store query. -/
theorem C7_date_validation (pd : String → Option Int) (hs : HistStore) (rs : ReportStore)
    (s e : String) (od : Option String) :
    ((getAccessHistories pd hs none od).resp.status = 400 ∧
     (getAccessHistories pd hs none od).resp.success = false ∧
     (getAccessHistories pd hs none od).queries = 0) ∧
    ((getAccessHistories pd hs (some s) none).resp.status = 400 ∧
     (getAccessHistories pd hs (some s) none).resp.success = false ∧
     (getAccessHistories pd hs (some s) none).queries = 0) ∧
    (pd s = none → getAccessHistories pd hs (some s) (some e)
      = { resp := ⟨400, false, "Invalid date format. Use YYYY-MM-DD", none⟩
          data := [], queries := 0 }) ∧
    (pd e = none → getAccessHistories pd hs (some s) (some e)
      = { resp := ⟨400, false, "Invalid date format. Use YYYY-MM-DD", none⟩
          data := [], queries := 0 }) ∧
    ((getDateReport pd rs none od).resp.status = 400 ∧
     (getDateReport pd rs none od).resp.success = false ∧
     (getDateReport pd rs none od).queries = 0) ∧
    ((getDateReport pd rs (some s) none).resp.status = 400 ∧
     (getDateReport pd rs (some s) none).resp.success = false ∧
     (getDateReport pd rs (some s) none).queries = 0) ∧
    (pd s = none → getDateReport pd rs (some s) (some e)
      = { resp := ⟨400, false, "Invalid date format. Use YYYY-MM-DD", none⟩
          snapshots := [], queries := 0 }) ∧
    (pd e = none → getDateReport pd rs (some s) (some e)
      = { resp := ⟨400, false, "Invalid date format. Use YYYY-MM-DD", none⟩
          snapshots := [], queries := 0 }) := by
  refine ⟨⟨rfl, rfl, rfl⟩, ⟨rfl, rfl, rfl⟩, ?_, ?_, ⟨rfl, rfl, rfl⟩, ⟨rfl, rfl, rfl⟩, ?_, ?_⟩
  · intro hp
    simp only [getAccessHistories, hp]
  · intro hp
    cases hps : pd s with
    | none => simp only [getAccessHistories, hps]
    | some sd => simp only [getAccessHistories, hps, hp]
  · intro hp
    simp only [getDateReport, hp]
  · intro hp
    cases hps : pd s with
    | none => simp only [getDateReport, hps]
    | some sd => simp only [getDateReport, hps, hp]

/-- C7 (witness). -/
theorem C7_witness :
    pdNone "not-a-date" = none ∧
    getAccessHistories pdNone hsOk (some "not-a-date") (some "2024-01-02")
      = { resp := ⟨400, false, "Invalid date format. Use YYYY-MM-DD", none⟩
          data := [], queries := 0 } ∧
    getDateReport pdNone rsOk (some "not-a-date") (some "2024-01-02")
      = { resp := ⟨400, false, "Invalid date format. Use YYYY-MM-DD", none⟩
          snapshots := [], queries := 0 } :=
  ⟨rfl,
    (C7_date_validation pdNone hsOk rsOk "not-a-date" "2024-01-02" none).2.2.1 rfl,
    (C7_date_validation pdNone hsOk rsOk "not-a-date" "2024-01-02" none).2.2.2.2.2.2.1 rfl⟩

/-- C8: with valid dates and a room_id matching no stored room,
getRoomAccessHistories answers 404 with success = false and message exactly
"Room not found", and performs no access-history query. -/
theorem C8_room_not_found (pd : String → Option Int) (store : RoomHistStore)
    (rid sd ed0 : Int) (s e : String)
    (hs : pd s = some sd) (he : pd e = some ed0)
    (hrf : store.roomFindError = none)
    (hnone : ∀ r ∈ store.rooms, (r.id : Int) ≠ rid) :
    (getRoomAccessHistories pd store (some rid) (some s) (some e)).resp
      = ⟨404, false, "Room not found", none⟩ ∧
    (getRoomAccessHistories pd store (some rid) (some s) (some e)).historyQueries = 0 := by
  have hfind : store.rooms.find? (fun r => (r.id : Int) == rid) = none :=
    List.find?_eq_none.mpr (fun r hr => by
      simp only [beq_iff_eq]
      exact hnone r hr)
  simp only [getRoomAccessHistories, hs, he, hrf, hfind]
  trivial

/-- C8 (witness). -/
theorem C8_witness :
    pdSome "2024-01-01" = some 0 ∧ rhsEmpty.roomFindError = none ∧
    (∀ r ∈ rhsEmpty.rooms, (r.id : Int) ≠ 1) ∧
    ((getRoomAccessHistories pdSome rhsEmpty (some 1) (some "2024-01-01")
        (some "2024-01-02")).resp = ⟨404, false, "Room not found", none⟩ ∧
      (getRoomAccessHistories pdSome rhsEmpty (some 1) (some "2024-01-01")
        (some "2024-01-02")).historyQueries = 0) :=
  ⟨rfl, rfl, by decide,
    C8_room_not_found pdSome rhsEmpty 1 0 0 "2024-01-01" "2024-01-02" rfl rfl rfl
      (by decide)⟩

/-- C9: whenever a store or writer call that a handler actually reaches
throws, the handler answers 500 with success = false and the thrown message
echoed in the error field of the body — for all five handlers and, for the
report handlers, at each of their store/writer call sites, with no snapshot
written. -/
theorem C9_store_errors_become_500 (pd : String → Option Int) (hs : HistStore)
    (rhs : RoomHistStore) (rs : ReportStore) (us : UsageStore) (m : String)
    (s e : String) (sd ed0 rid now som eot sD eD : Int) (r : Room) :
    (pd s = some sd → pd e = some ed0 → hs.findError = some m →
      (getAccessHistories pd hs (some s) (some e)).resp
        = ⟨500, false, "An error occurred while fetching access histories", some m⟩) ∧
    (pd s = some sd → pd e = some ed0 → rhs.roomFindError = some m →
      (getRoomAccessHistories pd rhs (some rid) (some s) (some e)).resp
        = ⟨500, false, "Error getting room access histories", some m⟩) ∧
    (pd s = some sd → pd e = some ed0 → rhs.roomFindError = none →
      rhs.rooms.find? (fun r2 => (r2.id : Int) == rid) = some r → rhs.findError = some m →
      (getRoomAccessHistories pd rhs (some rid) (some s) (some e)).resp
        = ⟨500, false, "Error getting room access histories", some m⟩) ∧
    (rs.findAccessesError = some m →
      (generateDailyReport rs now som eot).resp
          = ⟨500, false, "Error generating daily report", some m⟩ ∧
        (generateDailyReport rs now som eot).snapshots = []) ∧
    (rs.findAccessesError = none → rs.findAbsencesError = some m →
      (generateDailyReport rs now som eot).resp
          = ⟨500, false, "Error generating daily report", some m⟩ ∧
        (generateDailyReport rs now som eot).snapshots = []) ∧
    (rs.findAccessesError = none → rs.findAbsencesError = none → rs.groupError = some m →
      (generateDailyReport rs now som eot).resp
          = ⟨500, false, "Error generating daily report", some m⟩ ∧
        (generateDailyReport rs now som eot).snapshots = []) ∧
    (rs.findAccessesError = none → rs.findAbsencesError = none → rs.groupError = none →
      rs.saveError = some m →
      (generateDailyReport rs now som eot).resp
          = ⟨500, false, "Error generating daily report", some m⟩ ∧
        (generateDailyReport rs now som eot).snapshots = []) ∧
    (pd s = some sd → pd e = some ed0 → rs.findAccessesError = some m →
      (getDateReport pd rs (some s) (some e)).resp
          = ⟨500, false, "Error generating custom report", some m⟩ ∧
        (getDateReport pd rs (some s) (some e)).snapshots = []) ∧
    (pd s = some sd → pd e = some ed0 → rs.findAccessesError = none →
      rs.findAbsencesError = none → rs.groupError = none → rs.saveError = some m →
      (getDateReport pd rs (some s) (some e)).resp
          = ⟨500, false, "Error generating custom report", some m⟩ ∧
        (getDateReport pd rs (some s) (some e)).snapshots = []) ∧
    (us.findError = some m →
      (getRoomUsageStats us sD eD).resp
        = ⟨500, false, "Error retrieving room usage statistics", some m⟩) ∧
    (us.findError = none → us.roomsError = some m →
      (getRoomUsageStats us sD eD).resp
        = ⟨500, false, "Error retrieving room usage statistics", some m⟩) := by
  refine ⟨?_, ?_, ?_, ?_, ?_, ?_, ?_, ?_, ?_, ?_, ?_⟩
  · intro h1 h2 h3
    simp only [getAccessHistories, h1, h2, h3]
  · intro h1 h2 h3
    simp only [getRoomAccessHistories, h1, h2, h3]
  · intro h1 h2 h3 h4 h5
    simp only [getRoomAccessHistories, h1, h2, h3, h4, h5]
  · intro h1
    simp only [generateDailyReport, runReport, h1]
    trivial
  · intro h1 h2
    simp only [generateDailyReport, runReport, h1, h2]
    trivial
  · intro h1 h2 h3
    simp only [generateDailyReport, runReport, h1, h2, h3]
    trivial
  · intro h1 h2 h3 h4
    simp only [generateDailyReport, runReport, h1, h2, h3, h4]
    trivial
  · intro h1 h2 h3
    simp only [getDateReport, runReport, h1, h2, h3]
    trivial
  · intro h1 h2 h3 h4 h5 h6
    simp only [getDateReport, runReport, h1, h2, h3, h4, h5, h6]
    trivial
  · intro h1
    simp only [getRoomUsageStats, h1]
  · intro h1 h2
    simp only [getRoomUsageStats, h1, h2]

/-- C9 (witness). -/
theorem C9_witness :
    (getAccessHistories pdSome hsBoom (some "2024-01-01") (some "2024-01-02")).resp
      = ⟨500, false, "An error occurred while fetching access histories", some "boom"⟩ ∧
    ((generateDailyReport rsBoom 0 0 50000000).resp
        = ⟨500, false, "Error generating daily report", some "boom"⟩ ∧
      (generateDailyReport rsBoom 0 0 50000000).snapshots = []) ∧
    (getRoomUsageStats usBoom 0 50000000).resp
      = ⟨500, false, "Error retrieving room usage statistics", some "boom"⟩ :=
  ⟨(C9_store_errors_become_500 pdSome hsBoom rhsEmpty rsBoom usBoom "boom"
      "2024-01-01" "2024-01-02" 0 0 1 0 0 50000000 0 50000000 room1).1 rfl rfl rfl,
    (C9_store_errors_become_500 pdSome hsBoom rhsEmpty rsBoom usBoom "boom"
      "2024-01-01" "2024-01-02" 0 0 1 0 0 50000000 0 50000000 room1).2.2.2.1 rfl,
    (C9_store_errors_become_500 pdSome hsBoom rhsEmpty rsBoom usBoom "boom"
      "2024-01-01" "2024-01-02" 0 0 1 0 0 50000000 0 50000000 room1).2.2.2.2.2.2.2.2.2.1 rfl⟩

theorem sorted_map_formatHistory (l : List AccessEvent)
    (h : List.Sorted entryGE l) :
    List.Sorted entryDescFH (l.map formatHistory) :=
  List.Pairwise.map formatHistory (fun _ _ hab => hab) h

/-- C10: the history lists returned by getAccessHistories and
getRoomAccessHistories are ordered by entry_datetime descending (on every
code path; the success path returns the store's DESC-ordered rows). -/
theorem C10_histories_sorted_desc (pd : String → Option Int) (hs : HistStore)
    (rhs : RoomHistStore) (rid : Option Int) (sdq edq : Option String) :
    List.Sorted entryDescFH (getAccessHistories pd hs sdq edq).data ∧
    List.Sorted entryDescFH (getRoomAccessHistories pd rhs rid sdq edq).data := by
  constructor
  · match sdq, edq with
    | none, _ => exact List.sorted_nil
    | some s, none => exact List.sorted_nil
    | some s, some e =>
      cases hps : pd s with
      | none => simp only [getAccessHistories, hps]; exact List.sorted_nil
      | some sd =>
        cases hpe : pd e with
        | none => simp only [getAccessHistories, hps, hpe]; exact List.sorted_nil
        | some ed0 =>
          cases hf : hs.findError with
          | some m => simp only [getAccessHistories, hps, hpe, hf]; exact List.sorted_nil
          | none =>
            simp only [getAccessHistories, hps, hpe, hf]
            exact sorted_map_formatHistory _
              (List.sorted_insertionSort entryGE _)
  · match rid with
    | none => exact List.sorted_nil
    | some ridv =>
      match sdq, edq with
      | none, _ => exact List.sorted_nil
      | some s, none => exact List.sorted_nil
      | some s, some e =>
        cases hps : pd s with
        | none => simp only [getRoomAccessHistories, hps]; exact List.sorted_nil
        | some sd =>
          cases hpe : pd e with
          | none => simp only [getRoomAccessHistories, hps, hpe]; exact List.sorted_nil
          | some ed0 =>
            cases hrf : rhs.roomFindError with
            | some m =>
              simp only [getRoomAccessHistories, hps, hpe, hrf]; exact List.sorted_nil
            | none =>
              cases hfr : rhs.rooms.find? (fun r => (r.id : Int) == ridv) with
              | none =>
                simp only [getRoomAccessHistories, hps, hpe, hrf, hfr]
                exact List.sorted_nil
              | some r =>
                cases hf : rhs.findError with
                | some m =>
                  simp only [getRoomAccessHistories, hps, hpe, hrf, hfr, hf]
                  exact List.sorted_nil
                | none =>
                  simp only [getRoomAccessHistories, hps, hpe, hrf, hfr, hf]
                  exact sorted_map_formatHistory _
                    (List.sorted_insertionSort entryGE _)
